import Mathlib

/-!
# Verification of the INDICATE code-executor execution engine

Shallow embedding of `src/indicate-spe-local/code-executor/main.py`:
the `/execute` endpoint (`execute_study`), the script runners
(`execute_r_script`, `execute_python_script`), the default-analysis
fallback, the status records it persists, and the stdout interpreter
built on Python's `json.loads`.

The environment-dependent pieces (the filesystem listing of a study
directory, the behaviour of a spawned child process, the wall clock)
are inputs of the model (`Env`); the model then computes, purely, the
sequence of status records persisted, the results artifact written,
the log content, the processes spawned, and the HTTP response —
exactly following the control flow of the source.
-/

namespace CodeExecutor

/-- JSON values, the result type of Python's `json.loads`.
Numbers are modelled as integers only: floating-point literals are not
modelled (no claim depends on them; the model parser rejects them, see
`parseNumTail`). -/
inductive Json where
  | null : Json
  | bool (b : Bool) : Json
  | num (n : Int) : Json
  | str (s : String) : Json
  | arr (elems : List Json) : Json
  | obj (fields : List (String × Json)) : Json

/-- Whether a JSON value is an object (a Python mapping). -/
def Json.isObj : Json → Bool
  | .obj _ => true
  | _ => false

/-- Whether a JSON value is an array (a Python list). -/
def Json.isArr : Json → Bool
  | .arr _ => true
  | _ => false

/-- Whether a JSON value is a bare scalar: number, string, boolean or null. -/
def Json.isScalar : Json → Bool
  | .null => true
  | .bool _ => true
  | .num _ => true
  | .str _ => true
  | .arr _ => false
  | .obj _ => false

/-- JSON whitespace, as accepted between tokens by `json.loads`. -/
def isJsonWs (c : Char) : Bool :=
  c = ' ' || c = '\t' || c = '\n' || c = '\r'

/-- Drop leading JSON whitespace. -/
def skipWs : List Char → List Char
  | [] => []
  | c :: cs => if isJsonWs c then skipWs cs else c :: cs

/-- Translation of a JSON string escape (after the backslash).
`\uXXXX` escapes are not modelled (parse failure); no claim depends
on them. -/
def escapeChar (e : Char) : Option Char :=
  if e = 'n' then some '\n'
  else if e = 't' then some '\t'
  else if e = 'r' then some '\r'
  else if e = '"' then some '"'
  else if e = '\\' then some '\\'
  else if e = '/' then some '/'
  else if e = 'b' then some (Char.ofNat 8)
  else if e = 'f' then some (Char.ofNat 12)
  else none

/-- Parse the body of a JSON string literal (after the opening quote),
returning the decoded string and the remaining input. A raw
(unescaped) control character is a parse failure, as in `json.loads`
with its default `strict=True`. -/
def parseStringBody : Nat → List Char → Option (String × List Char)
  | 0, _ => none
  | _, [] => none
  | fuel + 1, c :: rest =>
    if c = '"' then some ("", rest)
    else if c = '\\' then
      match rest with
      | [] => none
      | e :: rest2 =>
        (escapeChar e).bind fun ec =>
          (parseStringBody fuel rest2).map fun p => (String.mk (ec :: p.1.data), p.2)
    else if c.toNat < 32 then none
    else
      (parseStringBody fuel rest).map fun p => (String.mk (c :: p.1.data), p.2)

/-- Collect a maximal run of decimal digits. -/
def takeDigits : List Char → List Char × List Char
  | [] => ([], [])
  | c :: cs =>
    if c.isDigit then
      let p := takeDigits cs
      (c :: p.1, p.2)
    else ([], c :: cs)

/-- Decimal value of a digit string (tail-recursive accumulation). -/
def digitsToNat (acc : Nat) : List Char → Nat
  | [] => acc
  | d :: rest => digitsToNat (acc * 10 + (d.toNat - '0'.toNat)) rest

/-- Parse the digits of a JSON number (after an optional minus sign),
rejecting what `json.loads` rejects: an empty digit run, a leading
zero followed by more digits, and (a modelling restriction) fraction
or exponent parts, i.e. floating-point literals. -/
def parseNumTail (neg : Bool) (cs : List Char) : Option (Json × List Char) :=
  let p := takeDigits cs
  match p.1 with
  | [] => none
  | d :: ds =>
    if d = '0' ∧ ds ≠ [] then none
    else
      match p.2 with
      | '.' :: _ => none
      | 'e' :: _ => none
      | 'E' :: _ => none
      | rest =>
        let v : Int := Int.ofNat (digitsToNat 0 (d :: ds))
        some (.num (if neg then -v else v), rest)

mutual

/-- Parse one JSON value from the input (leading whitespace allowed),
returning it and the remaining input. Fuel bounds recursion depth. -/
def parseValue : Nat → List Char → Option (Json × List Char)
  | 0, _ => none
  | fuel + 1, cs =>
    match skipWs cs with
    | [] => none
    | c :: rest =>
      if c = 'n' then
        match rest with
        | 'u' :: 'l' :: 'l' :: r => some (.null, r)
        | _ => none
      else if c = 't' then
        match rest with
        | 'r' :: 'u' :: 'e' :: r => some (.bool true, r)
        | _ => none
      else if c = 'f' then
        match rest with
        | 'a' :: 'l' :: 's' :: 'e' :: r => some (.bool false, r)
        | _ => none
      else if c = '"' then
        (parseStringBody (rest.length + 1) rest).map fun p => (.str p.1, p.2)
      else if c = '-' then parseNumTail true rest
      else if c.isDigit then parseNumTail false (c :: rest)
      else if c = '[' then
        match skipWs rest with
        | ']' :: r => some (.arr [], r)
        | _ =>
          (parseElems fuel rest).map fun p => (.arr p.1, p.2)
      else if c = '{' then
        match skipWs rest with
        | '}' :: r => some (.obj [], r)
        | _ =>
          (parseMembers fuel rest).map fun p => (.obj p.1, p.2)
      else none

/-- Parse a non-empty comma-separated list of values, up to and
including the closing bracket. -/
def parseElems : Nat → List Char → Option (List Json × List Char)
  | 0, _ => none
  | fuel + 1, cs =>
    (parseValue fuel cs).bind fun p =>
      match skipWs p.2 with
      | ']' :: r => some ([p.1], r)
      | ',' :: r =>
        (parseElems fuel r).map fun q => (p.1 :: q.1, q.2)
      | _ => none

/-- Parse a non-empty comma-separated list of `"key": value` members,
up to and including the closing brace. -/
def parseMembers : Nat → List Char → Option (List (String × Json) × List Char)
  | 0, _ => none
  | fuel + 1, cs =>
    match skipWs cs with
    | '"' :: rest =>
      (parseStringBody (rest.length + 1) rest).bind fun pk =>
        match skipWs pk.2 with
        | ':' :: r =>
          (parseValue fuel r).bind fun pv =>
            match skipWs pv.2 with
            | '}' :: r2 => some ([(pk.1, pv.1)], r2)
            | ',' :: r2 =>
              (parseMembers fuel r2).map fun q => ((pk.1, pv.1) :: q.1, q.2)
            | _ => none
        | _ => none
    | _ => none

end

/-- Model of Python's `json.loads`: parse the whole string as one JSON
document (trailing whitespace allowed); `none` models the
`json.JSONDecodeError` raised on failure. -/
def json_loads (s : String) : Option Json :=
  match parseValue (s.length + 2) s.data with
  | some (v, rest) =>
    match skipWs rest with
    | [] => some v
    | _ => none
  | none => none

/-- The fallback record `{"output": stdout, "type": "text"}` built when
stdout does not parse as JSON (lines 379 and 418 of the source). -/
def fallbackRecord (stdout : String) : Json :=
  .obj [("output", .str stdout), ("type", .str "text")]

/-- The result interpreter: `try: return json.loads(result.stdout)
except: return {"output": result.stdout, "type": "text"}`
(lines 376–379 / 415–418 of the source). Total by construction. -/
def interpretOutput (stdout : String) : Json :=
  match json_loads stdout with
  | some v => v
  | none => fallbackRecord stdout

/-- The `ExecutionRequest` model of the source (lines 47–52):
`parameters` is carried in its `json.dumps` serialised form (it is
only ever written into the log header), with `json.dumps None`
rendered as `"null"`. -/
structure ExecutionRequest where
  study_id : String
  execution_id : String
  parameters : Option String
  timeout : Nat

/-- The pydantic bounds `Field(default=300, ge=10, le=3600)` on
`timeout` (line 52): FastAPI rejects a request outside them. -/
def validRequest (req : ExecutionRequest) : Bool :=
  10 ≤ req.timeout && req.timeout ≤ 3600

/-- The `ExecutionStatus` model of the source (lines 54–62).
`status` is the literal string the code stores
(`pending, running, completed, failed`); timestamps are abstract
`Nat` clock readings. -/
structure ExecutionStatus where
  study_id : String
  execution_id : String
  status : String
  created_at : Nat
  completed_at : Option Nat
  error_message : Option String
  results_available : Bool

/-- The observable outcome of `subprocess.run` on a spawned script:
either the process exits (exit code, captured stdout, captured
stderr) or `subprocess.TimeoutExpired` is raised, with whatever
partial output had been captured at that moment. -/
inductive RunOutcome where
  | exited (code : Nat) (stdout stderr : String)
  | timedOut (partialStdout partialStderr : String)

/-- Which interpreter a chosen script is run with. -/
inductive ScriptKind where
  | R
  | Python

/-- The interpreter name as it appears in log and error messages. -/
def ScriptKind.name : ScriptKind → String
  | .R => "R"
  | .Python => "Python"

/-- The environment `execute_study` runs in: the studies directory
(`studies id` is the directory listing of `/studies/<id>` in the
arbitrary order `os.scandir` / `Path.glob` yields it, or `none` when
the directory does not exist), the behaviour of running each script
path as a child process, the behaviour of the built-in default
cohort analysis (`ok` its result dict, `error` the message of the
exception it raised), its log text, and two wall-clock readings
(`datetime.utcnow()` at creation and at completion). -/
structure Env where
  studies : String → Option (List String)
  run : String → RunOutcome
  defaultAnalysis : Except String Json
  defaultLog : String
  t0 : Nat
  t1 : Nat

/-- `raise HTTPException(status_code=..., detail=...)` as FastAPI
returns it to the HTTP caller. -/
structure HTTPException where
  status_code : Nat
  detail : String

/-- Everything `execute_study` does that the outside world can see:
the status records persisted to `status.json` in write order, the
results artifacts written to `results.json`, the child processes
spawned, the final content of `execution.log` (`none` when the log
file was never opened), and the HTTP response — the returned
`ExecutionStatus` or the raised `HTTPException`. -/
structure ExecResult where
  statusWrites : List ExecutionStatus
  resultsWrites : List Json
  spawns : List (ScriptKind × String)
  logContent : Option String
  response : Except HTTPException ExecutionStatus

/-- Whether `s` ends with `suffix` (computed on the character lists,
so that it evaluates inside the kernel). -/
def strEndsWith (s suffix : String) : Bool :=
  suffix.data.reverse.isPrefixOf s.data.reverse

/-- `glob("*.R")` membership on a directory listing: a suffix match,
case-sensitive on Linux. `pathlib.Path.glob` does match dot-initial
(hidden) file names, so no leading-dot exclusion applies. -/
def isRFile (name : String) : Bool :=
  strEndsWith name ".R"

/-- `glob("*.py")` membership on a directory listing. -/
def isPyFile (name : String) : Bool :=
  strEndsWith name ".py"

/-- The script-resolution branch of `execute_study` (lines 283–313):
`r_scripts = list(study_dir.glob("*.R"))`,
`py_scripts = list(study_dir.glob("*.py"))`; run `r_scripts[0]` if
any, else `py_scripts[0]` if any, else the default analysis
(`none`). The listing is consumed in the order the filesystem
returned it — `Path.glob` does not sort. -/
def selectScript (listing : List String) : Option (ScriptKind × String) :=
  match listing.filter isRFile with
  | f :: _ => some (.R, f)
  | [] =>
    match listing.filter isPyFile with
    | f :: _ => some (.Python, f)
    | [] => none

/-- `json.dumps(parameters)` for the log header. -/
def paramsDump : Option String → String
  | none => "null"
  | some s => s

/-- The log header written before the process is spawned
(lines 354–356 / 393–395). -/
def scriptLogHeader (kind : ScriptKind) (path : String) (params : Option String) : String :=
  "Executing " ++ kind.name ++ " script: " ++ path ++ "\n" ++
    "Parameters: " ++ paramsDump params ++ "\n\n"

/-- The common body of `execute_r_script` (lines 345–382) and
`execute_python_script` (lines 384–421), which are textually
identical up to the interpreter invoked and the interpreter name in
messages. Returns the final content of the log file and either the
interpreted result (`ok`) or the message of the exception raised
(`error`). On `subprocess.TimeoutExpired` the `log.write` calls for
stdout/stderr are never reached: the log holds only the header. -/
def execute_script (kind : ScriptKind) (path : String) (params : Option String)
    (timeout : Nat) (outcome : RunOutcome) : String × Except String Json :=
  let header := scriptLogHeader kind path params
  match outcome with
  | .timedOut _ _ =>
    (header,
      .error (kind.name ++ " script execution timed out after " ++
        toString timeout ++ " seconds"))
  | .exited code stdout stderr =>
    let log := header ++ "=== STDOUT ===\n" ++ stdout ++ "\n=== STDERR ===\n" ++ stderr
    if code ≠ 0 then
      (log,
        .error (kind.name ++ " script failed with code " ++ toString code ++
          ": " ++ stderr))
    else
      (log, .ok (interpretOutput stdout))

/-- `execute_r_script` (source lines 345–382). -/
def execute_r_script (path : String) (params : Option String) (timeout : Nat)
    (outcome : RunOutcome) : String × Except String Json :=
  execute_script .R path params timeout outcome

/-- `execute_python_script` (source lines 384–421). -/
def execute_python_script (path : String) (params : Option String) (timeout : Nat)
    (outcome : RunOutcome) : String × Except String Json :=
  execute_script .Python path params timeout outcome

/-- `run_default_cohort_analysis` (source lines 423–489): on a
database error it re-raises `Exception("Default cohort analysis
failed: " + str(e))`. -/
def run_default_cohort_analysis (env : Env) : String × Except String Json :=
  match env.defaultAnalysis with
  | .ok results => (env.defaultLog, .ok results)
  | .error msg => (env.defaultLog, .error ("Default cohort analysis failed: " ++ msg))

/-- The `except Exception` block of `execute_study`
(lines 332–343): mutate the in-memory status to `failed`, record the
error message and completion time, persist it, and re-raise as
`HTTPException(500, "Execution failed: " + str(e))`. -/
def failurePath (env : Env) (status0 : ExecutionStatus) (spawns : List (ScriptKind × String))
    (logContent : Option String) (msg : String) : ExecResult :=
  let status1 : ExecutionStatus :=
    { status0 with
        status := "failed"
        error_message := some msg
        completed_at := some env.t1 }
  { statusWrites := [status0, status1]
    resultsWrites := []
    spawns := spawns
    logContent := logContent
    response := .error ⟨500, "Execution failed: " ++ msg⟩ }

/-- The tail of the `try` block of `execute_study` (lines 315–330):
mutate the status to `completed`, write `results.json`, write the
final status, and return the status object. -/
def successPath (env : Env) (status0 : ExecutionStatus) (spawns : List (ScriptKind × String))
    (logContent : Option String) (results : Json) : ExecResult :=
  let status1 : ExecutionStatus :=
    { status0 with
        status := "completed"
        completed_at := some env.t1
        results_available := true }
  { statusWrites := [status0, status1]
    resultsWrites := [results]
    spawns := spawns
    logContent := logContent
    response := .ok status1 }

/-- The `/execute` endpoint `execute_study` (source lines 255–343).
Control flow, in source order: create the execution directory; build
the initial status (state `running`) and persist it; check the study
directory exists, raising `HTTPException(404, "Study not found")`
otherwise (caught by the outer `except Exception`, whose `str(e)` is
`"404: Study not found"`); resolve the script; run it (or the
default analysis); on success interpret stdout, persist results then
final status and return it; any raised exception takes the failure
path. -/
def execute_study (env : Env) (req : ExecutionRequest) : ExecResult :=
  let status0 : ExecutionStatus :=
    { study_id := req.study_id
      execution_id := req.execution_id
      status := "running"
      created_at := env.t0
      completed_at := none
      error_message := none
      results_available := false }
  match env.studies req.study_id with
  | none =>
    failurePath env status0 [] none "404: Study not found"
  | some listing =>
    match selectScript listing with
    | some (kind, path) =>
      match execute_script kind path req.parameters req.timeout (env.run path) with
      | (log, .ok results) => successPath env status0 [(kind, path)] (some log) results
      | (log, .error msg) => failurePath env status0 [(kind, path)] (some log) msg
    | none =>
      match run_default_cohort_analysis env with
      | (log, .ok results) => successPath env status0 [] (some log) results
      | (log, .error msg) => failurePath env status0 [] (some log) msg

/-- Whether `needle` occurs as a contiguous run inside `hay`. -/
def listContains (hay needle : List Char) : Bool :=
  match hay with
  | [] => needle.isEmpty
  | _ :: cs => needle.isPrefixOf hay || listContains cs needle

/-- Substring containment on strings (for log/error-message claims). -/
def containsSubstr (hay needle : String) : Bool :=
  listContains hay.data needle.data


/-! ## The ExecutionStatus record invariant (spec §3) -/

/-- The §3 invariant on one persisted status record, relative to
whether a results artifact was written for the execution:
`completed_at` set iff terminal, `results_available` only when
completed with an artifact, `error_message` only when failed. -/
def statusInvariant (resultsExist : Bool) (r : ExecutionStatus) : Bool :=
  (r.completed_at.isSome == (r.status == "completed" || r.status == "failed")) &&
  (!r.results_available || (r.status == "completed" && resultsExist)) &&
  (!r.error_message.isSome || r.status == "failed")

/-! ## Concrete fixtures for witnesses and counterexamples -/

/-- A request for a study with no registered file set. -/
def reqMissing : ExecutionRequest :=
  { study_id := "missing", execution_id := "e1", parameters := none, timeout := 300 }

/-- A request for study `s1`. -/
def reqS1 : ExecutionRequest :=
  { study_id := "s1", execution_id := "e1", parameters := none, timeout := 300 }

/-- An environment in which no study directory exists at all. -/
def envMissing : Env :=
  { studies := fun _ => none
    run := fun _ => .exited 0 "" ""
    defaultAnalysis := .ok .null
    defaultLog := ""
    t0 := 0
    t1 := 1 }

/-- Study `s1` holds two R scripts, listed by the filesystem in the
order `b.R`, `a.R` — the reverse of lexicographic order. Every run
exits 0 with JSON `null` on stdout. -/
def envTwoR : Env :=
  { studies := fun id => if id = "s1" then some ["b.R", "a.R"] else none
    run := fun _ => .exited 0 "null" ""
    defaultAnalysis := .ok .null
    defaultLog := ""
    t0 := 0
    t1 := 1 }

/-- Study `s1` holds one R script `slow.R` whose run hits the
timeout with partial output already captured. -/
def envTimeout : Env :=
  { studies := fun id => if id = "s1" then some ["slow.R"] else none
    run := fun _ => .timedOut "PARTIALOUT" "PARTIALERR"
    defaultAnalysis := .ok .null
    defaultLog := ""
    t0 := 0
    t1 := 1 }

/-- Study `s1` holds one Python script `a.py` that exits 0 writing
the non-JSON text `hello` to stdout. -/
def envText : Env :=
  { studies := fun id => if id = "s1" then some ["a.py"] else none
    run := fun _ => .exited 0 "hello" ""
    defaultAnalysis := .ok .null
    defaultLog := ""
    t0 := 0
    t1 := 1 }

/-- Study `s1` holds one Python script `a.py` that exits 0 writing
the bare JSON number `42` to stdout. -/
def envScalar : Env :=
  { studies := fun id => if id = "s1" then some ["a.py"] else none
    run := fun _ => .exited 0 "42" ""
    defaultAnalysis := .ok .null
    defaultLog := ""
    t0 := 0
    t1 := 1 }

/-- Study `s1` holds one R script `fail.R` that exits 1 with stderr
`boom`. -/
def envExit1 : Env :=
  { studies := fun id => if id = "s1" then some ["fail.R"] else none
    run := fun _ => .exited 1 "" "boom"
    defaultAnalysis := .ok .null
    defaultLog := ""
    t0 := 0
    t1 := 1 }

/-- Lexicographic (code-point) order on character lists. -/
def lexLt (a b : List Char) : Bool :=
  match a, b with
  | _, [] => false
  | [], _ => true
  | x :: xs, y :: ys =>
    if x < y then true
    else if y < x then false
    else lexLt xs ys

/-- Lexicographic order on strings. -/
def strLexLt (a b : String) : Bool :=
  lexLt a.data b.data

/-- Lexicographically least element of a list of strings. -/
def lexLeast : List String → Option String
  | [] => none
  | s :: ss => some (ss.foldl (fun a b => if strLexLt b a then b else a) s)

/-- Modelled from the spec: the Script Resolver policy of §4.1 as the
spec words it — "choose the first in a stable (e.g. lexicographic)
order", R scripts before Python scripts, else the default analysis.
Stated only to compare against the source's `selectScript`. -/
def selectScript_spec (listing : List String) : Option (ScriptKind × String) :=
  match lexLeast (listing.filter isRFile) with
  | some f => some (.R, f)
  | none =>
    match lexLeast (listing.filter isPyFile) with
    | some f => some (.Python, f)
    | none => none


/-! ## Sanity evaluations of the JSON parser model -/

example : json_loads "42" = some (.num 42) := by rfl
example : json_loads "null" = some .null := by rfl
example : json_loads "true" = some (.bool true) := by rfl
example : json_loads "\x7b\"a\": 1\x7d" = some (.obj [("a", .num 1)]) := by rfl
example : json_loads "[1, 2]" = some (.arr [.num 1, .num 2]) := by rfl
example : json_loads "not json" = none := by rfl
example : json_loads "-17 " = some (.num (-17)) := by rfl
example : json_loads "\"hi\"" = some (.str "hi") := by rfl

/-! ## Claims -/

/-! ## Helper lemmas -/

/-- A list is a prefix of itself followed by anything. -/
lemma isPrefixOf_append_self (l r : List Char) : l.isPrefixOf (l ++ r) = true := by
  induction l with
  | nil => cases r <;> rfl
  | cons c cs ih => simp [List.isPrefixOf, ih]

/-- A contiguous run occurs in any list built around it. -/
lemma listContains_middle (pre needle post : List Char) :
    listContains (pre ++ (needle ++ post)) needle = true := by
  induction pre with
  | nil =>
    cases needle with
    | nil =>
      cases post with
      | nil => rfl
      | cons c cs => rfl
    | cons n ns =>
      show listContains ((n :: ns) ++ post) (n :: ns) = true
      unfold listContains
      simp [isPrefixOf_append_self]
  | cons c cs ih =>
    show listContains (c :: (cs ++ (needle ++ post))) needle = true
    unfold listContains
    simp [ih]

/-- String form: if `a` decomposes around `b`, then `a` contains `b`. -/
lemma containsSubstr_parts (a b : String) (pre post : List Char)
    (h : a.data = pre ++ (b.data ++ post)) : containsSubstr a b = true := by
  unfold containsSubstr
  rw [h]
  exact listContains_middle pre b.data post

/-- The processes `execute_study` spawns, as a function of the study
listing: exactly the resolver's choice, at most one. -/
lemma spawns_eq (env : Env) (req : ExecutionRequest) :
    (execute_study env req).spawns =
      match env.studies req.study_id with
      | none => []
      | some listing =>
        match selectScript listing with
        | some kf => [kf]
        | none => [] := by
  unfold execute_study
  split
  · rfl
  · split <;> split <;> simp_all [successPath, failurePath]

/-- **C1, counterexample.** The claim says `submitExecution` always
returns a status object and that failures other than
`StoreUnavailable` never escape as raised errors. On a request for a
missing study, `execute_study` instead raises
`HTTPException(500, "Execution failed: 404: Study not found")`:
the failure escapes to the caller as a raised error, and no status
object is returned. -/
theorem C1_counterexample :
    (execute_study envMissing reqMissing).response =
      .error ⟨500, "Execution failed: 404: Study not found"⟩ := by
  rfl

/-- **C1, amended.** For every ExecutionRequest, `execute_study`
either returns a status whose state is `completed`, or — for every
failure kind — catches the failure, persists a terminal `failed`
status carrying the error message as its last status write, and then
re-raises it to the caller as an `HTTPException` with code 500. -/
theorem C1_amended (env : Env) (req : ExecutionRequest) :
    (∃ s, (execute_study env req).response = .ok s ∧ s.status = "completed")
    ∨ (∃ msg,
        (execute_study env req).response = .error ⟨500, "Execution failed: " ++ msg⟩ ∧
        ∃ r, (execute_study env req).statusWrites.getLast? = some r ∧
          r.status = "failed" ∧ r.error_message = some msg) := by
  unfold execute_study
  split
  · exact Or.inr ⟨"404: Study not found", rfl, _, rfl, rfl, rfl⟩
  · split
    · split
      · exact Or.inl ⟨_, rfl, rfl⟩
      · exact Or.inr ⟨_, rfl, _, rfl, rfl, rfl⟩
    · split
      · exact Or.inl ⟨_, rfl, rfl⟩
      · exact Or.inr ⟨_, rfl, _, rfl, rfl, rfl⟩

/-- **C2, counterexample.** The claim says that when `StudyNotFound`
is surfaced no status record with any state exists for the
execution. On a request for a missing study the engine in fact
persists a status record with state `running` (the very first write,
made before the study directory is checked) and then the terminal
`failed` record, while the response is the study-not-found error. -/
theorem C2_counterexample :
    (execute_study envMissing reqMissing).statusWrites.map ExecutionStatus.status =
      ["running", "failed"] ∧
    (execute_study envMissing reqMissing).response =
      .error ⟨500, "Execution failed: 404: Study not found"⟩ := by
  exact ⟨rfl, rfl⟩

/-- **C2, amended.** For every request whose study_id has no file
set, the study-not-found failure is surfaced before any child
process is spawned and before any results artifact is written — but
a status record with state `running` has already been persisted for
that execution_id, and is then overwritten by the terminal `failed`
record carrying the study-not-found message. -/
theorem C2_amended (env : Env) (req : ExecutionRequest)
    (h : env.studies req.study_id = none) :
    (execute_study env req).statusWrites.map ExecutionStatus.status =
      ["running", "failed"] ∧
    (execute_study env req).spawns = [] ∧
    (execute_study env req).resultsWrites = [] ∧
    (∃ r, (execute_study env req).statusWrites.getLast? = some r ∧
      r.error_message = some "404: Study not found") ∧
    (execute_study env req).response =
      .error ⟨500, "Execution failed: 404: Study not found"⟩ := by
  unfold execute_study
  rw [h]
  exact ⟨rfl, rfl, rfl, ⟨_, rfl, rfl⟩, rfl⟩

/-- **C2, witness for the amended theorem.** -/
theorem C2_amended_witness :
    (execute_study envMissing reqMissing).spawns = [] ∧
    (execute_study envMissing reqMissing).statusWrites.map ExecutionStatus.status =
      ["running", "failed"] :=
  ⟨(C2_amended envMissing reqMissing rfl).2.1,
   (C2_amended envMissing reqMissing rfl).1⟩

/-- **C3.** Every status record the engine persists satisfies the
ExecutionStatus invariant: `completed_at` is set iff the state is
`completed` or `failed`, `results_available` is true only when the
state is `completed` and a results artifact was written, and
`error_message` is set only when the state is `failed`. -/
theorem C3_status_invariant (env : Env) (req : ExecutionRequest) :
    (execute_study env req).statusWrites.all
      (statusInvariant (!(execute_study env req).resultsWrites.isEmpty)) = true := by
  unfold execute_study
  split
  · rfl
  · split
    · split
      · rfl
      · rfl
    · split
      · rfl
      · rfl

/-- **C8.** Every execution performs exactly two status persists:
the first writes state `running`, the second writes a terminal
state; the results artifact is written at most once, and exactly
when the terminal state is `completed`. (Each persist in the source
is a `json.dump` of the full pydantic record — a full-record
overwrite by construction, which the model reflects by emitting
whole `ExecutionStatus` values.) -/
theorem C8_two_persists (env : Env) (req : ExecutionRequest) :
    ∃ r0 r1, (execute_study env req).statusWrites = [r0, r1] ∧
      r0.status = "running" ∧
      (r1.status = "completed" ∨ r1.status = "failed") ∧
      (execute_study env req).resultsWrites.length ≤ 1 ∧
      ((execute_study env req).resultsWrites ≠ [] ↔ r1.status = "completed") := by
  unfold execute_study
  split
  · exact ⟨_, _, rfl, rfl, Or.inr rfl, Nat.zero_le 1,
      iff_of_false (fun h => h rfl) (show ("failed" : String) ≠ "completed" by decide)⟩
  · split
    · split
      · exact ⟨_, _, rfl, rfl, Or.inl rfl, Nat.le_refl 1,
          iff_of_true (List.cons_ne_nil _ _) rfl⟩
      · exact ⟨_, _, rfl, rfl, Or.inr rfl, Nat.zero_le 1,
          iff_of_false (fun h => h rfl) (show ("failed" : String) ≠ "completed" by decide)⟩
    · split
      · exact ⟨_, _, rfl, rfl, Or.inl rfl, Nat.le_refl 1,
          iff_of_true (List.cons_ne_nil _ _) rfl⟩
      · exact ⟨_, _, rfl, rfl, Or.inr rfl, Nat.zero_le 1,
          iff_of_false (fun h => h rfl) (show ("failed" : String) ≠ "completed" by decide)⟩

/-- **C9.** The state `pending` is never observable: the first
status record persisted already has state `running`, and every
persisted record's state is one of `running`, `completed`,
`failed`. -/
theorem C9_pending_never_persisted (env : Env) (req : ExecutionRequest) :
    (∃ r0, (execute_study env req).statusWrites.head? = some r0 ∧
      r0.status = "running") ∧
    (execute_study env req).statusWrites.all
      (fun r => r.status == "running" || r.status == "completed" ||
        r.status == "failed") = true := by
  unfold execute_study
  split
  · exact ⟨⟨_, rfl, rfl⟩, rfl⟩
  · split
    · split
      · exact ⟨⟨_, rfl, rfl⟩, rfl⟩
      · exact ⟨⟨_, rfl, rfl⟩, rfl⟩
    · split
      · exact ⟨⟨_, rfl, rfl⟩, rfl⟩
      · exact ⟨⟨_, rfl, rfl⟩, rfl⟩

/-- **C4, counterexample.** The claim says the executed script is the
first R file in a stable lexicographic order. Script selection uses
`Path.glob`, which yields the directory listing in arbitrary
filesystem order: for study `s1` listed as `["b.R", "a.R"]` the
engine executes `b.R`, although the lexicographically first R file —
the one the spec's resolver (`selectScript_spec`) picks — is `a.R`. -/
theorem C4_counterexample :
    (execute_study envTwoR reqS1).spawns = [(.R, "b.R")] ∧
    selectScript_spec ["b.R", "a.R"] = some (.R, "a.R") ∧
    strLexLt "a.R" "b.R" = true := by
  exact ⟨rfl, rfl, rfl⟩

/-- **C4, amended.** Script resolution follows strict priority over
the directory listing in the order the filesystem returns it (not
necessarily lexicographic): if any R file is present, the first R
file in listing order is the one executed, with kind R; else, if any
Python file is present, the first Python file in listing order is
executed with kind Python; else no script is spawned (the built-in
default analysis runs); exactly one runnable is executed per
request. In particular a study containing both an R and a Python
file always has an R file executed. -/
theorem C4_amended (env : Env) (req : ExecutionRequest) (listing : List String)
    (h : env.studies req.study_id = some listing) :
    ((execute_study env req).spawns =
      match selectScript listing with
      | some kf => [kf]
      | none => []) ∧
    (∀ f rest, listing.filter isRFile = f :: rest →
      (execute_study env req).spawns = [(.R, f)]) ∧
    (∀ f rest, listing.filter isRFile = [] →
      listing.filter isPyFile = f :: rest →
      (execute_study env req).spawns = [(.Python, f)]) ∧
    (listing.filter isRFile = [] → listing.filter isPyFile = [] →
      (execute_study env req).spawns = []) ∧
    (execute_study env req).spawns.length ≤ 1 := by
  have hs : (execute_study env req).spawns =
      match selectScript listing with
      | some kf => [kf]
      | none => [] := by
    have h0 := spawns_eq env req
    rw [h] at h0
    exact h0
  refine ⟨hs, ?_, ?_, ?_, ?_⟩
  · intro f rest hfil
    rw [hs]
    unfold selectScript
    rw [hfil]
  · intro f rest hr hpy
    rw [hs]
    unfold selectScript
    rw [hr, hpy]
  · intro hr hpy
    rw [hs]
    unfold selectScript
    rw [hr, hpy]
  · rw [hs]
    cases selectScript listing with
    | none => exact Nat.zero_le 1
    | some kf => exact Nat.le_refl 1

/-- **C4, witness for the amended theorem.** -/
theorem C4_amended_witness :
    (execute_study envTwoR reqS1).spawns = [(.R, "b.R")] :=
  (C4_amended envTwoR reqS1 ["b.R", "a.R"] rfl).2.1 "b.R" ["a.R"] rfl

/-- **C5, counterexample.** The claim says the partial stdout/stderr
captured before a timeout is still written to the execution's log.
On a timeout, `subprocess.TimeoutExpired` propagates out of the
`with open(log_file)` block before the stdout/stderr `log.write`
calls are reached, so the log holds only the pre-execution header:
for a run with partial stdout `PARTIALOUT` and partial stderr
`PARTIALERR`, neither appears in the log, although the execution
does fail with a timeout-referencing error_message. -/
theorem C5_counterexample :
    (execute_study envTimeout reqS1).logContent =
      some "Executing R script: slow.R\nParameters: null\n\n" ∧
    containsSubstr "Executing R script: slow.R\nParameters: null\n\n" "PARTIALOUT" = false ∧
    containsSubstr "Executing R script: slow.R\nParameters: null\n\n" "PARTIALERR" = false ∧
    (∃ r, (execute_study envTimeout reqS1).statusWrites.getLast? = some r ∧
      r.status = "failed" ∧
      r.error_message = some "R script execution timed out after 300 seconds") := by
  exact ⟨rfl, rfl, rfl, _, rfl, rfl, rfl⟩

/-- **C5, amended.** When the chosen runnable exceeds
`timeout_seconds`, the execution transitions to `failed` with an
error_message referencing the timeout, but the partial stdout and
stderr captured before termination are NOT written to the
execution's log: the log contains exactly the pre-execution header
(script name and parameters). -/
theorem C5_amended (env : Env) (req : ExecutionRequest) (listing : List String)
    (kind : ScriptKind) (path pOut pErr : String)
    (h1 : env.studies req.study_id = some listing)
    (h2 : selectScript listing = some (kind, path))
    (h3 : env.run path = .timedOut pOut pErr) :
    (∃ r, (execute_study env req).statusWrites.getLast? = some r ∧
      r.status = "failed" ∧
      r.error_message = some (kind.name ++ " script execution timed out after " ++
        toString req.timeout ++ " seconds")) ∧
    (execute_study env req).logContent =
      some (scriptLogHeader kind path req.parameters) ∧
    (execute_study env req).response =
      .error ⟨500, "Execution failed: " ++ (kind.name ++
        " script execution timed out after " ++ toString req.timeout ++ " seconds")⟩ := by
  simp only [execute_study, execute_script, h1, h2, h3]
  exact ⟨⟨_, rfl, rfl, rfl⟩, rfl, rfl⟩

/-- **C5, witness for the amended theorem.** -/
theorem C5_amended_witness :
    (execute_study envTimeout reqS1).logContent =
      some "Executing R script: slow.R\nParameters: null\n\n" :=
  (C5_amended envTimeout reqS1 ["slow.R"] .R "slow.R" "PARTIALOUT" "PARTIALERR"
    rfl rfl rfl).2.1

/-- **C6.** When the chosen runnable exits 0, the execution reaches
state `completed` and the persisted result is exactly the
interpreter's output on the captured stdout: the JSON parse of
stdout when it parses, and the fallback record
`{output: stdout, type: "text"}` otherwise — the interpreter is a
total function (never throws), and in the fallback case the
execution still completes. -/
theorem C6_interpreter_fallback (env : Env) (req : ExecutionRequest)
    (listing : List String) (kind : ScriptKind) (path out err : String)
    (h1 : env.studies req.study_id = some listing)
    (h2 : selectScript listing = some (kind, path))
    (h3 : env.run path = .exited 0 out err) :
    (∃ s, (execute_study env req).response = .ok s ∧ s.status = "completed") ∧
    (execute_study env req).resultsWrites = [interpretOutput out] ∧
    (∀ v, json_loads out = some v → interpretOutput out = v) ∧
    (json_loads out = none → interpretOutput out = fallbackRecord out) := by
  simp only [execute_study, execute_script, h1, h2, h3]
  refine ⟨⟨_, rfl, rfl⟩, rfl, ?_, ?_⟩
  · intro v hv
    unfold interpretOutput
    rw [hv]
  · intro hv
    unfold interpretOutput
    rw [hv]

/-- **C6, witness.** A script that writes the non-JSON text `hello`
and exits 0 completes with the fallback record as its result. -/
theorem C6_witness :
    (execute_study envText reqS1).resultsWrites = [fallbackRecord "hello"] ∧
    (∃ s, (execute_study envText reqS1).response = .ok s ∧ s.status = "completed") := by
  have h := C6_interpreter_fallback envText reqS1 ["a.py"] .Python "a.py" "hello" ""
    rfl rfl rfl
  exact ⟨h.2.1, h.1⟩

/-- **C7.** When the chosen runnable exits with a non-zero code, the
execution transitions to `failed`; the error_message is the runner's
message, which contains the exit code and the captured stderr; no
results artifact is written. -/
theorem C7_nonzero_exit (env : Env) (req : ExecutionRequest) (listing : List String)
    (kind : ScriptKind) (path : String) (code : Nat) (out err : String)
    (h1 : env.studies req.study_id = some listing)
    (h2 : selectScript listing = some (kind, path))
    (h3 : env.run path = .exited code out err)
    (h4 : code ≠ 0) :
    (∃ r, (execute_study env req).statusWrites.getLast? = some r ∧
      r.status = "failed" ∧
      r.error_message = some (kind.name ++ " script failed with code " ++
        toString code ++ ": " ++ err) ∧
      containsSubstr (kind.name ++ " script failed with code " ++
        toString code ++ ": " ++ err) (toString code) = true ∧
      containsSubstr (kind.name ++ " script failed with code " ++
        toString code ++ ": " ++ err) err = true) ∧
    (execute_study env req).resultsWrites = [] ∧
    (execute_study env req).response =
      .error ⟨500, "Execution failed: " ++ (kind.name ++
        " script failed with code " ++ toString code ++ ": " ++ err)⟩ := by
  simp only [execute_study, execute_script, h1, h2, h3, if_pos h4]
  refine ⟨⟨_, rfl, rfl, rfl, ?_, ?_⟩, rfl, rfl⟩
  · apply containsSubstr_parts _ _
      ((kind.name ++ " script failed with code ").data) ((": " ++ err).data)
    simp [List.append_assoc]
  · apply containsSubstr_parts _ _
      ((kind.name ++ " script failed with code " ++ toString code ++ ": ").data) []
    simp [List.append_assoc]

/-- **C7, witness.** -/
theorem C7_witness :
    (∃ r, (execute_study envExit1 reqS1).statusWrites.getLast? = some r ∧
      r.status = "failed" ∧
      r.error_message = some "R script failed with code 1: boom") ∧
    (execute_study envExit1 reqS1).resultsWrites = [] := by
  have h := C7_nonzero_exit envExit1 reqS1 ["fail.R"] .R "fail.R" 1 "" "boom"
    rfl rfl rfl (by decide)
  obtain ⟨⟨r, hr1, hr2, hr3, _, _⟩, hres, _⟩ := h
  exact ⟨⟨r, hr1, hr2, hr3⟩, hres⟩

/-- **C10.** When the chosen runnable exits 0 and its stdout parses
as a bare JSON scalar (number, string, boolean or null), the
persisted result is exactly that scalar value — which is neither a
mapping, nor a list, nor the `{output, type: "text"}` fallback
record. -/
theorem C10_scalar_verbatim (env : Env) (req : ExecutionRequest)
    (listing : List String) (kind : ScriptKind) (path out err : String) (v : Json)
    (h1 : env.studies req.study_id = some listing)
    (h2 : selectScript listing = some (kind, path))
    (h3 : env.run path = .exited 0 out err)
    (h4 : json_loads out = some v)
    (h5 : v.isScalar = true) :
    (execute_study env req).resultsWrites = [v] ∧
    v.isObj = false ∧ v.isArr = false ∧ (∀ s, v ≠ fallbackRecord s) := by
  have hint : interpretOutput out = v := by
    unfold interpretOutput
    rw [h4]
  simp only [execute_study, execute_script, h1, h2, h3]
  refine ⟨?_, ?_, ?_, ?_⟩
  · exact congrArg (fun x => [x]) hint
  · cases v
    · rfl
    · rfl
    · rfl
    · rfl
    · exact Bool.noConfusion h5
    · exact Bool.noConfusion h5
  · cases v
    · rfl
    · rfl
    · rfl
    · rfl
    · exact Bool.noConfusion h5
    · exact Bool.noConfusion h5
  · intro s heq
    rw [heq] at h5
    exact Bool.noConfusion h5

/-- **C10, witness.** A script writing the bare JSON number `42` to
stdout persists the scalar `42` as its result. -/
theorem C10_witness :
    (execute_study envScalar reqS1).resultsWrites = [Json.num 42] :=
  (C10_scalar_verbatim envScalar reqS1 ["a.py"] .Python "a.py" "42" "" (Json.num 42)
    rfl rfl rfl rfl rfl).1

end CodeExecutor
